import Mathlib

/-!
Verification of the weather-lookup core of the 3D building viewer
(`src/App.jsx` / `src/WeatherBuildingViewer.jsx`).

The embedded pieces are:
* `fetchWeather` — the Open-Meteo adapter (`fetchWeather` in the source),
  modelled as a total function from the observable outcome of the HTTP
  exchange to an `Except`-valued result, where the `Except` error channel
  represents a rejected promise and the surrounding try/catch of the source
  maps every internal throw to the fallback record;
* `WMO` / `labelFor` — the static condition-code table and the lookup
  expression `WMO[code] || "Code " + code` used by the modal;
* the panel state machine of `WeatherBuildingViewer`: `clickStart` is the
  synchronous prefix of `onBuildingClick` up to the `await`, `resolveFetch`
  is its continuation (the try/catch/finally around the `await`),
  `closePanel` is the escape-key / backdrop-click handler, and
  `mountFetchStart` / `mountFetchResolve` embed the initial-mount effect.

JavaScript numbers carry no arithmetic in this core (they are only stored,
compared with `===`, and displayed), so they are modelled as rationals.
-/

/-- A latitude/longitude pair; the click handler compares the two fields
with `===`, i.e. structural equality. -/
structure Coord where
  lat : ℚ
  lng : ℚ
  deriving DecidableEq, Repr

/-- A numeric field of a weather record: either an actual number from the
service or the sentinel placeholder string `"--"`. -/
inductive Reading where
  | val : ℚ → Reading
  | dash : Reading
  deriving DecidableEq, Repr

/-- The `units` sub-object of a weather record. -/
structure WeatherUnits where
  temperature : String
  windspeed : String
  deriving DecidableEq, Repr

/-- The normalized record built by the adapter; every field is present by
construction (the source constructs the object literal atomically). -/
structure WeatherRecord where
  temperature : Reading
  windspeed : Reading
  winddirection : Reading
  weathercode : Int
  time : String
  units : WeatherUnits
  deriving DecidableEq, Repr

/-- The `current_weather` section of an Open-Meteo response body; each field
may be null/absent, which the adapter handles with `??`. -/
structure CurrentWeather where
  temperature : Option ℚ
  windspeed : Option ℚ
  winddirection : Option ℚ
  weathercode : Option Int
  time : Option String
  deriving DecidableEq, Repr

/-- The observable outcome of the HTTP exchange performed by the adapter:
either the transport layer failed (rejected `fetch`/`res.json()`), or a
response arrived with an `ok` flag and an optional `current_weather`
section. -/
inductive FetchOutcome where
  | transportError (msg : String)
  | response (ok : Bool) (current_weather : Option CurrentWeather)
  deriving DecidableEq, Repr

/-- The record returned by the catch branch of `fetchWeather`; `now` is the
value of `new Date().toISOString()` at that moment. -/
def fallbackRecord (now : String) : WeatherRecord :=
  { temperature := .dash
    windspeed := .dash
    winddirection := .dash
    weathercode := 0
    time := now
    units := { temperature := "°C", windspeed := "km/h" } }

/-- `x ?? "--"` on an optional numeric field. -/
def readingOf : Option ℚ → Reading
  | some x => .val x
  | none => .dash

/-- The try-block of `fetchWeather`: throws (`Except.error`) on a
non-success status or a missing `current_weather` section, otherwise builds
the record with per-field `??` fallbacks. -/
def fetchWeatherBody (outcome : FetchOutcome) (now : String) :
    Except String WeatherRecord :=
  match outcome with
  | .transportError msg => .error msg
  | .response ok cwOpt =>
      if ok then
        match cwOpt with
        | none => .error "No current weather data available"
        | some cw =>
            .ok { temperature := readingOf cw.temperature
                  windspeed := readingOf cw.windspeed
                  winddirection := readingOf cw.winddirection
                  weathercode := cw.weathercode.getD 0
                  time := cw.time.getD now
                  units := { temperature := "°C", windspeed := "km/h" } }
      else .error "Weather fetch failed"

/-- The whole adapter: the catch branch converts every throw of the body
into an ordinary return of the fallback record, so the error channel of the
result is never used. -/
def fetchWeather (outcome : FetchOutcome) (now : String) :
    Except String WeatherRecord :=
  match fetchWeatherBody outcome now with
  | .ok r => .ok r
  | .error _ => .ok (fallbackRecord now)

/-- The static WMO condition-code table, exactly as in the source. -/
def WMO : List (Int × String) :=
  [(0, "Clear sky"), (1, "Mainly clear"), (2, "Partly cloudy"),
   (3, "Overcast"), (45, "Fog"), (48, "Depositing rime fog"),
   (51, "Light drizzle"), (53, "Moderate drizzle"), (55, "Dense drizzle"),
   (61, "Slight rain"), (63, "Moderate rain"), (65, "Heavy rain"),
   (71, "Slight snow"), (73, "Moderate snow"), (75, "Heavy snow"),
   (95, "Thunderstorm")]

/-- The condition label shown by the modal:
`WMO[code] || "Code " + code`. JavaScript `||` falls through on any falsy
value, and the only falsy string is the empty one. -/
def labelFor (code : Int) : String :=
  match WMO.lookup code with
  | some s => if s = "" then "Code " ++ toString code else s
  | none => "Code " ++ toString code

/-- The React state of `WeatherBuildingViewer`: modal flag, loading flag,
error message (`""` when none), last fetched record (`none` before any
resolution), and the coordinate of the last clicked building. -/
structure PanelState where
  modalOpen : Bool
  loading : Bool
  error : String
  weather : Option WeatherRecord
  clickedCoords : Coord
  deriving DecidableEq, Repr

/-- Truthiness of `weather && weather.time`: a record is present and its
`time` field is a truthy (non-empty) string. -/
def hasTimedRecord : Option WeatherRecord → Bool
  | some w => !(w.time == "")
  | none => false

/-- The dedup condition of `onBuildingClick`:
`weather && weather.time && clickedCoords.lat === coord.lat &&
clickedCoords.lng === coord.lng`, evaluated against the state captured at
click time. -/
def cacheHit (s : PanelState) (coord : Coord) : Bool :=
  hasTimedRecord s.weather && decide (s.clickedCoords.lat = coord.lat)
    && decide (s.clickedCoords.lng = coord.lng)

/-- The synchronous prefix of `onBuildingClick` up to the `await`:
stores the clicked coordinate, opens the modal, then either returns early
on a cache hit or enters the loading state. The boolean of the result
records whether a fetch was issued. -/
def clickStart (s : PanelState) (coord : Coord) : PanelState × Bool :=
  if cacheHit s coord then
    ({ s with clickedCoords := coord, modalOpen := true }, false)
  else
    ({ s with clickedCoords := coord, modalOpen := true,
              loading := true, error := "" }, true)

/-- The continuation of `onBuildingClick` once the awaited promise
settles: `setWeather(data)` on fulfillment,
`setError(e.message || "Failed to fetch weather")` on rejection, and
`setLoading(false)` in the finally clause on both paths. -/
def resolveFetch (s : PanelState) (result : Except String WeatherRecord) :
    PanelState :=
  match result with
  | .ok w => { s with weather := some w, loading := false }
  | .error msg =>
      { s with error := if msg = "" then "Failed to fetch weather" else msg
               loading := false }

/-- The escape-key handler and the backdrop/close-button handlers:
all of them call exactly `setModalOpen(false)`. -/
def closePanel (s : PanelState) : PanelState :=
  { s with modalOpen := false }

/-- The `useState` initializers of `WeatherBuildingViewer`: modal closed,
not loading, no error, no record, clicked coordinate preset to the
`coords` prop. -/
def initialState (coords : Coord) : PanelState :=
  { modalOpen := false, loading := false, error := "", weather := none
    clickedCoords := coords }

/-- The synchronous prefix of the mount effect `fetchCurrentWeather`:
`setLoading(true); setError("")`. -/
def mountFetchStart (s : PanelState) : PanelState :=
  { s with loading := true, error := "" }

/-- The continuation of the mount effect once its awaited promise settles:
`setWeather(data); setClickedCoords(coords)` on fulfillment, the error
message on rejection, `setLoading(false)` in the finally clause. -/
def mountFetchResolve (s : PanelState) (coords : Coord)
    (result : Except String WeatherRecord) : PanelState :=
  match result with
  | .ok w =>
      { s with weather := some w, clickedCoords := coords, loading := false }
  | .error msg =>
      { s with error := if msg = "" then "Failed to fetch weather" else msg
               loading := false }

/-- Coordinate of the first click in the stale-response trace. -/
def coordA : Coord := { lat := 13, lng := 80 }

/-- Coordinate of the second click in the stale-response trace. -/
def coordB : Coord := { lat := 28, lng := 77 }

/-- Service response for `coordA` in the stale-response trace. -/
def respA : FetchOutcome :=
  .response true (some { temperature := some 31, windspeed := some 7
                         winddirection := some 180, weathercode := some 1
                         time := some "2026-10-11T09:00" })

/-- Service response for `coordB` in the stale-response trace. -/
def respB : FetchOutcome :=
  .response true (some { temperature := some 18, windspeed := some 12
                         winddirection := some 90, weathercode := some 61
                         time := some "2026-10-11T09:05" })

/-- The record the adapter builds from `respA`. -/
def recA : WeatherRecord :=
  { temperature := .val 31, windspeed := .val 7, winddirection := .val 180
    weathercode := 1, time := "2026-10-11T09:00"
    units := { temperature := "°C", windspeed := "km/h" } }

/-- The record the adapter builds from `respB`. -/
def recB : WeatherRecord :=
  { temperature := .val 18, windspeed := .val 12, winddirection := .val 90
    weathercode := 61, time := "2026-10-11T09:05"
    units := { temperature := "°C", windspeed := "km/h" } }

/-- The stale-response trace: starting from the freshly mounted state,
click `coordA`, click `coordB` before the first fetch settles, let
`coordB`'s fetch resolve first and `coordA`'s fetch resolve last. Each
resolution is processed exactly as `onBuildingClick` processes it. -/
def staleTraceFinal : PanelState :=
  let s0 := initialState { lat := 12.8385, lng := 80.1697 }
  let sA := (clickStart s0 coordA).1
  let sB := (clickStart sA coordB).1
  let sResB := resolveFetch sB (fetchWeather respB "2026-10-11T09:05Z")
  resolveFetch sResB (fetchWeather respA "2026-10-11T09:00Z")

/-- Helper shared by several proofs: the adapter always fulfills. -/
lemma fetchWeather_isOk (outcome : FetchOutcome) (now : String) :
    ∃ r : WeatherRecord, fetchWeather outcome now = Except.ok r := by
  unfold fetchWeather
  cases fetchWeatherBody outcome now <;> exact ⟨_, rfl⟩

/-- Helper: the dedup condition spelled out as a proposition. -/
lemma cacheHit_iff (s : PanelState) (coord : Coord) :
    cacheHit s coord = true ↔
      (∃ w, s.weather = some w ∧ w.time ≠ "") ∧
        s.clickedCoords.lat = coord.lat ∧ s.clickedCoords.lng = coord.lng := by
  unfold cacheHit hasTimedRecord
  cases h : s.weather with
  | none => simp
  | some w => simp [h, and_assoc]

/-- Claim C2: for every observable outcome of the HTTP exchange the adapter
fulfills (never rejects), and the returned record is the fully-populated
`WeatherRecord` shape with its fixed units. -/
theorem fetchWeather_never_rejects (outcome : FetchOutcome) (now : String) :
    ∃ r : WeatherRecord, fetchWeather outcome now = Except.ok r ∧
      r.units.temperature = "°C" ∧ r.units.windspeed = "km/h" := by
  cases outcome with
  | transportError msg => exact ⟨fallbackRecord now, rfl, rfl, rfl⟩
  | response ok cwOpt => cases ok <;> cases cwOpt <;> exact ⟨_, rfl, rfl, rfl⟩

/-- Claim C3: on a transport failure, a non-success status, or a response
missing the `current_weather` section, the adapter returns exactly the
fallback record (all sentinels, `weathercode = 0`, fixed units) with its
timestamp set to the invocation-time `now`. -/
theorem fetchWeather_failure_fallback (msg now : String)
    (cwOpt : Option CurrentWeather) :
    fetchWeather (.transportError msg) now = Except.ok (fallbackRecord now) ∧
    fetchWeather (.response false cwOpt) now = Except.ok (fallbackRecord now) ∧
    fetchWeather (.response true none) now = Except.ok (fallbackRecord now) :=
  ⟨rfl, rfl, rfl⟩

/-- Claim C4: on a successful response carrying a `current_weather` section
the adapter maps fields 1:1, substituting each absent field's own fallback
(sentinel for the three readings, `0` for the code, `now` for the time)
while leaving present fields untouched. -/
theorem fetchWeather_success_field_fallbacks (cw : CurrentWeather)
    (now : String) :
    ∃ r : WeatherRecord,
      fetchWeather (.response true (some cw)) now = Except.ok r ∧
      (cw.temperature = none → r.temperature = Reading.dash) ∧
      (∀ t, cw.temperature = some t → r.temperature = Reading.val t) ∧
      (cw.windspeed = none → r.windspeed = Reading.dash) ∧
      (∀ v, cw.windspeed = some v → r.windspeed = Reading.val v) ∧
      (cw.winddirection = none → r.winddirection = Reading.dash) ∧
      (∀ d, cw.winddirection = some d → r.winddirection = Reading.val d) ∧
      (cw.weathercode = none → r.weathercode = 0) ∧
      (∀ c, cw.weathercode = some c → r.weathercode = c) ∧
      (cw.time = none → r.time = now) ∧
      (∀ u, cw.time = some u → r.time = u) ∧
      r.units.temperature = "°C" ∧ r.units.windspeed = "km/h" := by
  refine ⟨_, rfl, ?_, ?_, ?_, ?_, ?_, ?_, ?_, ?_, ?_, ?_, rfl, rfl⟩
  all_goals intros
  all_goals simp_all [readingOf]

/-- Witness for C4 at a concrete response mixing absent and present
fields. -/
theorem fetchWeather_success_field_fallbacks_witness :
    ∃ r : WeatherRecord,
      fetchWeather
          (.response true (some { temperature := none, windspeed := some 12,
                                  winddirection := none, weathercode := none,
                                  time := some "2026-10-11T10:00" }))
          "NOW" = Except.ok r ∧
      r.temperature = Reading.dash ∧ r.windspeed = Reading.val 12 ∧
      r.weathercode = 0 ∧ r.time = "2026-10-11T10:00" := by
  obtain ⟨r, hok, h1, h2, h3, h4, h5, h6, h7, h8, h9, h10, h11, h12⟩ :=
    fetchWeather_success_field_fallbacks
      { temperature := none, windspeed := some 12, winddirection := none,
        weathercode := none, time := some "2026-10-11T10:00" } "NOW"
  exact ⟨r, hok, h1 rfl, h4 12 rfl, h7 rfl, h10 _ rfl⟩

/-- Helper: the generated label is never the empty string. -/
lemma code_label_ne_empty (code : Int) : "Code " ++ toString code ≠ "" := by
  intro h
  have hlen := congrArg String.length h
  rw [String.length_append] at hlen
  have h5 : ("Code " : String).length = 5 := rfl
  have h0 : ("" : String).length = 0 := rfl
  rw [h5, h0] at hlen
  omega

/-- Claim C5: the condition-label lookup is total — every integer code
yields a non-empty string; every code of the fixed table yields its exact
documented label; every code outside the table yields the generated label
embedding the code. -/
theorem labelFor_total_and_correct :
    (∀ code : Int, labelFor code ≠ "") ∧
    (∀ p ∈ WMO, labelFor p.1 = p.2) ∧
    labelFor 61 = "Slight rain" ∧
    labelFor 0 = "Clear sky" ∧
    (∀ code : Int, WMO.lookup code = none →
      labelFor code = "Code " ++ toString code) := by
  refine ⟨?_, by decide, by decide, by decide, ?_⟩
  · intro code
    unfold labelFor
    cases hl : WMO.lookup code with
    | none => exact code_label_ne_empty code
    | some s =>
        show (if s = "" then "Code " ++ toString code else s) ≠ ""
        by_cases hs : s = ""
        · rw [if_pos hs]; exact code_label_ne_empty code
        · rw [if_neg hs]; exact hs
  · intro code h
    unfold labelFor
    rw [h]

/-- Witness for C5: a mapped code, an unmapped code, and a negative
code. -/
theorem labelFor_total_and_correct_witness :
    labelFor 77 = "Code 77" ∧ labelFor (-5) = "Code -5" ∧
    labelFor 61 = "Slight rain" := by
  obtain ⟨-, -, h61, -, hgen⟩ := labelFor_total_and_correct
  refine ⟨?_, ?_, h61⟩
  · rw [hgen 77 (by decide)]; decide
  · rw [hgen (-5) (by decide)]; decide

/-- Claim C6: a click whose coordinate equals the currently selected one,
while a record with a truthy timestamp is cached, opens the modal reusing
the state (no fetch); any other click opens the modal in the loading state
and issues a fetch. -/
theorem click_dedup_cache (s : PanelState) (coord : Coord) :
    ((∃ w, s.weather = some w ∧ w.time ≠ "") ∧
        s.clickedCoords.lat = coord.lat ∧ s.clickedCoords.lng = coord.lng →
      clickStart s coord =
        ({ s with clickedCoords := coord, modalOpen := true }, false)) ∧
    (¬((∃ w, s.weather = some w ∧ w.time ≠ "") ∧
        s.clickedCoords.lat = coord.lat ∧ s.clickedCoords.lng = coord.lng) →
      clickStart s coord =
        ({ s with clickedCoords := coord, modalOpen := true,
                  loading := true, error := "" }, true)) := by
  constructor
  · intro h
    have hc : cacheHit s coord = true := (cacheHit_iff s coord).mpr h
    simp [clickStart, hc]
  · intro h
    cases hc : cacheHit s coord with
    | true => exact absurd ((cacheHit_iff s coord).mp hc) h
    | false => simp [clickStart, hc]

/-- A loaded, settled panel state used by several witnesses. -/
def sLoadedB : PanelState :=
  { modalOpen := false, loading := false, error := "",
    weather := some recB, clickedCoords := coordB }

/-- Witness for C6: the repeated click on `coordB` reuses the cache and the
click on a different coordinate fetches. -/
theorem click_dedup_cache_witness :
    clickStart sLoadedB coordB =
      ({ sLoadedB with clickedCoords := coordB, modalOpen := true },
        false) ∧
    clickStart sLoadedB coordA =
      ({ sLoadedB with clickedCoords := coordA, modalOpen := true,
                       loading := true, error := "" }, true) := by
  obtain ⟨hhit, -⟩ := click_dedup_cache sLoadedB coordB
  obtain ⟨-, hmiss⟩ := click_dedup_cache sLoadedB coordA
  constructor
  · exact hhit ⟨⟨recB, rfl, by decide⟩, rfl, rfl⟩
  · exact hmiss (by intro hx; exact absurd hx.2.1 (by decide))

/-- Claim C7: closing the panel (escape key, backdrop, close button) only
clears the modal flag, leaving record, coordinate, loading flag and error
message untouched, so a subsequent click on the same coordinate hits the
cache rule and issues no fetch. -/
theorem close_preserves_state (s : PanelState) :
    (closePanel s).modalOpen = false ∧
    (closePanel s).weather = s.weather ∧
    (closePanel s).clickedCoords = s.clickedCoords ∧
    (closePanel s).loading = s.loading ∧
    (closePanel s).error = s.error ∧
    (∀ w, s.weather = some w → w.time ≠ "" →
      (clickStart (closePanel s) s.clickedCoords).2 = false ∧
      (clickStart (closePanel s) s.clickedCoords).1.weather = s.weather) := by
  refine ⟨rfl, rfl, rfl, rfl, rfl, ?_⟩
  intro w hw ht
  have hc : cacheHit (closePanel s) s.clickedCoords = true :=
    (cacheHit_iff _ _).mpr ⟨⟨w, hw, ht⟩, rfl, rfl⟩
  unfold clickStart
  rw [if_pos hc]
  exact ⟨rfl, rfl⟩

/-- Witness for C7: close an open loaded panel and click the same
coordinate again. -/
theorem close_preserves_state_witness :
    (closePanel { sLoadedB with modalOpen := true }).modalOpen = false ∧
    (clickStart (closePanel { sLoadedB with modalOpen := true })
        coordB).2 = false := by
  obtain ⟨h1, -, -, -, -, h6⟩ :=
    close_preserves_state { sLoadedB with modalOpen := true }
  exact ⟨h1, (h6 recB rfl (by decide)).1⟩

/-- Claim C8: under the adapter's never-throw behaviour the catch branch of
`onBuildingClick` is dead — after any click that issued a fetch settles,
the error message is the empty string. -/
theorem click_error_stays_empty (s : PanelState) (coord : Coord)
    (outcome : FetchOutcome) (now : String) :
    (clickStart s coord).2 = true →
      (resolveFetch (clickStart s coord).1
          (fetchWeather outcome now)).error = "" := by
  intro h
  obtain ⟨r, hr⟩ := fetchWeather_isOk outcome now
  rw [hr]
  cases hc : cacheHit s coord with
  | true => simp [clickStart, hc] at h
  | false => simp [clickStart, hc, resolveFetch]

/-- Witness for C8: a fetching click on a fresh state settles with an empty
error message. -/
theorem click_error_stays_empty_witness :
    (clickStart (initialState coordA) coordB).2 = true ∧
    (resolveFetch (clickStart (initialState coordA) coordB).1
        (fetchWeather respB "2026-10-11T09:05Z")).error = "" := by
  refine ⟨by decide, ?_⟩
  exact click_error_stays_empty (initialState coordA) coordB respB
    "2026-10-11T09:05Z" (by decide)

/-- Claim C9: mounting pre-fetches the default coordinate in the
background — the modal flag is false in the initial state, still false
while that fetch is loading, and still false when it resolves, at which
point the record is stored and the selected coordinate is the default. -/
theorem mount_prefetch_background (coords : Coord) (outcome : FetchOutcome)
    (now : String) :
    (initialState coords).modalOpen = false ∧
    (mountFetchStart (initialState coords)).modalOpen = false ∧
    ∃ w : WeatherRecord, fetchWeather outcome now = Except.ok w ∧
      mountFetchResolve (mountFetchStart (initialState coords)) coords
          (fetchWeather outcome now) =
        { modalOpen := false, loading := false, error := "",
          weather := some w, clickedCoords := coords } := by
  refine ⟨rfl, rfl, ?_⟩
  obtain ⟨w, hw⟩ := fetchWeather_isOk outcome now
  exact ⟨w, hw, by rw [hw]; rfl⟩

/-- Claim C10: every fetch-issuing operation raises the loading flag
before awaiting, and every settlement (fulfillment or rejection, through
the finally clause) lowers it again. -/
theorem loading_flag_settles (s : PanelState) (coord : Coord)
    (result : Except String WeatherRecord) :
    ((clickStart s coord).2 = true → (clickStart s coord).1.loading = true) ∧
    (resolveFetch s result).loading = false ∧
    (mountFetchStart s).loading = true ∧
    (mountFetchResolve s coord result).loading = false := by
  refine ⟨?_, ?_, rfl, ?_⟩
  · intro h
    cases hc : cacheHit s coord with
    | true => simp [clickStart, hc] at h
    | false => simp [clickStart, hc]
  · cases result <;> rfl
  · cases result <;> rfl

/-- Witness for C10: a fetching click raises the flag; a settled fetch
lowers it. -/
theorem loading_flag_settles_witness :
    (clickStart (initialState coordA) coordB).1.loading = true ∧
    (resolveFetch (initialState coordA)
        (fetchWeather respA "2026-10-11T09:00Z")).loading = false := by
  obtain ⟨h1, h2, -, -⟩ := loading_flag_settles (initialState coordA) coordB
    (fetchWeather respA "2026-10-11T09:00Z")
  exact ⟨h1 (by decide), h2⟩

/-- Claim C1, evaluated at the failing interleaving: click `coordA`, click
`coordB` before the first fetch settles, let `coordB`'s fetch resolve
first and the stale `coordA` fetch resolve last. The handler applies the
stale resolution unconditionally, so the final state pairs
`selectedCoordinate = coordB` with `lastRecord = recA`, the record of the
superseded coordinate — the last-request-wins guarantee fails. -/
theorem stale_resolution_clobbers_newer_record :
    fetchWeather respA "2026-10-11T09:00Z" = Except.ok recA ∧
    fetchWeather respB "2026-10-11T09:05Z" = Except.ok recB ∧
    staleTraceFinal.clickedCoords = coordB ∧
    staleTraceFinal.weather = some recA ∧
    staleTraceFinal.weather ≠ some recB := by
  refine ⟨rfl, rfl, rfl, rfl, by decide⟩
